import Mathlib

/-!
Verification of the LeapTracking finger-press / kinematics pipeline.

A shallow embedding, in Lean 4, of the core tracking pipeline of the
LeapTrackingPython repository:

* `src/tracking/hand_tracker.py` — `FingerSnapshot`, `FrameSnapshot`,
  the rolling frame buffer, the per-finger press detector and the
  flexion-angle estimator;
* `src/tracking/kinematics.py` — `KinematicsProcessor.calculate_trial_metrics`
  and its helpers;
* `src/tracking/calibration.py` — the calibration state machine
  (baseline capture, per-finger calibration, completion, cancellation);
* `src/game/constants.py` — the relevant constants.

Machine floats are modelled by `ℝ` (with an explicit `FloatVal` wrapper
where the code can produce IEEE infinity), Python dicts keyed by finger
name by functions out of `String`, and Python `None` by `Option`.
Proofs use classical decidability for comparisons on `ℝ`.
-/

open scoped Classical

noncomputable section

namespace LeapTracking

/-- A 3D vector in millimetres, the `(x, y, z)` tuples of the source. -/
structure Vec3 where
  x : ℝ
  y : ℝ
  z : ℝ

/-- `FINGER_NAMES` from `src/game/constants.py` (left to right on screen). -/
def FINGER_NAMES : List String :=
  ["left_pinky", "left_ring", "left_middle", "left_index", "left_thumb",
   "right_thumb", "right_index", "right_middle", "right_ring", "right_pinky"]

/-- `PRESS_DEBOUNCE_TIME = 200` (ms) from `src/game/constants.py`. -/
def PRESS_DEBOUNCE_TIME : ℝ := 200

/-- `FINGER_PRESS_THRESHOLD = 0.3` from `src/game/constants.py`. -/
def FINGER_PRESS_THRESHOLD : ℝ := 0.3

/-- Modelled from the spec: `FINGER_PRESS_ANGLE_THRESHOLD` is imported from
`game.constants` by the tracking modules but is not defined in any file under
`src/`; the spec fixes the default angle threshold at 30 degrees
("compare against that finger's `angle_threshold` (default 30°)"). -/
def FINGER_PRESS_ANGLE_THRESHOLD : ℝ := 30

/-- `BUFFER_DURATION_MS = 1000` from `src/tracking/hand_tracker.py`. -/
def BUFFER_DURATION_MS : ℕ := 1000

/-- `FRAME_SAMPLE_RATE_MS = 16` from `src/tracking/hand_tracker.py`. -/
def FRAME_SAMPLE_RATE_MS : ℕ := 16

/-- The deque capacity `int(BUFFER_DURATION_MS / FRAME_SAMPLE_RATE_MS)` from
`HandTracker.__init__`: Python truncates `1000 / 16 = 62.5` to `62`. -/
def BUFFER_MAXLEN : ℕ := BUFFER_DURATION_MS / FRAME_SAMPLE_RATE_MS

/-- `FingerSnapshot` from `src/tracking/hand_tracker.py`: the state of one
finger at one point in time. -/
structure FingerSnapshot where
  name : String
  tip_position : Vec3
  angle : ℝ
  is_pressed : Bool

/-- `FrameSnapshot` from `src/tracking/hand_tracker.py`: all finger states at
a single timestamp.  The Python dict `fingers` becomes a partial map. -/
structure FrameSnapshot where
  timestamp_ms : ℝ
  fingers : String → Option FingerSnapshot

namespace FrameSnapshot

/-- `FrameSnapshot.add_finger`: insert a finger snapshot under its name. -/
def add_finger (f : FrameSnapshot) (fg : FingerSnapshot) : FrameSnapshot :=
  { f with fingers := fun n => if n = fg.name then some fg else f.fingers n }

/-- `FrameSnapshot.get_finger`: `self.fingers.get(name)`. -/
def get_finger (f : FrameSnapshot) (name : String) : Option FingerSnapshot :=
  f.fingers name

end FrameSnapshot

/-! ## Kinematics processor (`src/tracking/kinematics.py`) -/

/-- `KinematicsProcessor.WINDOW_BEFORE_MS = 200`. -/
def WINDOW_BEFORE_MS : ℝ := 200

/-- `KinematicsProcessor.WINDOW_AFTER_MS = 400`. -/
def WINDOW_AFTER_MS : ℝ := 400

/-- `KinematicsProcessor.MLR_THRESHOLD = 0.10`. -/
def MLR_THRESHOLD : ℝ := 0.10

/-- A Python float that is either finite or positive infinity — the two shapes
`calculate_trial_metrics` can produce for a motion-leakage ratio. -/
inductive FloatVal where
  | fin (x : ℝ)
  | inf

/-- The IEEE comparison `v <= b` for a finite bound `b`: infinity compares
greater than every finite float. -/
def FloatVal.le (v : FloatVal) (b : ℝ) : Prop :=
  match v with
  | .fin x => x ≤ b
  | .inf => False

/-- `KinematicsProcessor._euclidean_distance`. -/
def euclidean_distance (p q : Vec3) : ℝ :=
  Real.sqrt ((q.x - p.x) ^ 2 + (q.y - p.y) ^ 2 + (q.z - p.z) ^ 2)

/-- Frames sorted by timestamp: `sorted(frames, key: f.timestamp_ms)`
(a stable sort by a real-valued key). -/
def sortFramesByTime (frames : List FrameSnapshot) : List FrameSnapshot :=
  frames.insertionSort (fun a b => a.timestamp_ms ≤ b.timestamp_ms)

/-- The contribution of one consecutive frame pair to a finger's path length:
the Euclidean distance between its tip positions when the finger is present in
both frames, `0` otherwise (the `if prev_finger and curr_finger` guard). -/
def pathContrib (name : String) (a b : FrameSnapshot) : ℝ :=
  match a.get_finger name, b.get_finger name with
  | some pf, some cf => euclidean_distance pf.tip_position cf.tip_position
  | _, _ => 0

/-- The contribution of one consecutive frame pair to a finger's angle path:
`abs(curr.angle - prev.angle)` when the finger is present in both frames. -/
def angleContrib (name : String) (a b : FrameSnapshot) : ℝ :=
  match a.get_finger name, b.get_finger name with
  | some pf, some cf => |cf.angle - pf.angle|
  | _, _ => 0

/-- `KinematicsProcessor._calculate_all_path_lengths`, read at one finger
name: `0` for fewer than two frames, otherwise the sum of consecutive-pair
distances over the frames sorted by timestamp. -/
def calculate_all_path_lengths (frames : List FrameSnapshot) (name : String) : ℝ :=
  if frames.length < 2 then 0
  else
    (List.zipWith (pathContrib name) (sortFramesByTime frames)
      (sortFramesByTime frames).tail).sum

/-- `KinematicsProcessor._calculate_all_angle_paths`, read at one finger
name. -/
def calculate_all_angle_paths (frames : List FrameSnapshot) (name : String) : ℝ :=
  if frames.length < 2 then 0
  else
    (List.zipWith (angleContrib name) (sortFramesByTime frames)
      (sortFramesByTime frames).tail).sum

/-- `path_lengths.get(finger, 0.0)`: the Python dict is keyed by exactly the
ten `FINGER_NAMES`, so a lookup of any other name yields the default `0.0`. -/
def path_lengths_get (frames : List FrameSnapshot) (name : String) : ℝ :=
  if name ∈ FINGER_NAMES then calculate_all_path_lengths frames name else 0

/-- `angle_paths.get(finger, 0.0)`. -/
def angle_paths_get (frames : List FrameSnapshot) (name : String) : ℝ :=
  if name ∈ FINGER_NAMES then calculate_all_angle_paths frames name else 0

/-- The dict comprehension
`{name: length for name, length in path_lengths.items() if name != target}`:
an association list over the nine non-target finger names. -/
def non_target_paths (frames : List FrameSnapshot) (target : String) :
    List (String × ℝ) :=
  (FINGER_NAMES.filter (fun n => n ≠ target)).map
    (fun n => (n, calculate_all_path_lengths frames n))

/-- The same comprehension for angle paths. -/
def non_target_angle_paths_of (frames : List FrameSnapshot) (target : String) :
    List (String × ℝ) :=
  (FINGER_NAMES.filter (fun n => n ≠ target)).map
    (fun n => (n, calculate_all_angle_paths frames n))

/-- `sum(d.values())` for one of the association lists above. -/
def dictValuesSum (d : List (String × ℝ)) : ℝ :=
  (d.map Prod.snd).sum

/-- `KinematicsProcessor._check_coupled_keypress`: did any finger other than
`pressed_finger` have `is_pressed` set in any windowed frame? -/
def check_coupled_keypress (frames : List FrameSnapshot) (pressed : String) : Prop :=
  ∃ f ∈ frames, ∃ name ∈ FINGER_NAMES,
    name ≠ pressed ∧ ∃ fg, f.get_finger name = some fg ∧ fg.is_pressed = true

/-- `TrialMetrics` from `src/tracking/kinematics.py`. -/
structure TrialMetrics where
  reaction_time_ms : ℝ
  target_finger : String
  pressed_finger : String
  is_wrong_finger : Prop
  target_path_length : ℝ
  non_target_path_lengths : List (String × ℝ)
  motion_leakage_ratio : FloatVal
  target_angle_path : ℝ
  non_target_angle_paths : List (String × ℝ)
  angle_based_mlr : FloatVal
  coupled_keypress : Prop
  is_clean_trial : Prop
  is_clean_trial_angle : Prop

/-- The body of `KinematicsProcessor.calculate_trial_metrics` after the frame
window has been fetched (lines 80–147 of `src/tracking/kinematics.py`). -/
def calc_metrics_from_frames (frames : List FrameSnapshot)
    (press_timestamp_ms : ℝ) (target_finger pressed_finger : String)
    (missile_spawn_time_ms : ℝ) : TrialMetrics :=
  let reaction_time_ms := press_timestamp_ms - missile_spawn_time_ms
  let target_path_length := path_lengths_get frames target_finger
  let non_target_path_lengths := non_target_paths frames target_finger
  let motion_leakage_ratio : FloatVal :=
    if target_path_length > 0.001 then
      .fin (dictValuesSum non_target_path_lengths / target_path_length)
    else
      if dictValuesSum non_target_path_lengths > 0 then .inf else .fin 0
  let coupled_keypress := check_coupled_keypress frames pressed_finger
  let target_angle_path := angle_paths_get frames target_finger
  let non_target_angle_paths := non_target_angle_paths_of frames target_finger
  let angle_based_mlr : FloatVal :=
    if target_angle_path > 0.1 then
      .fin (dictValuesSum non_target_angle_paths / target_angle_path)
    else
      if dictValuesSum non_target_angle_paths > 0.1 then .inf else .fin 0
  let is_wrong_finger := target_finger ≠ pressed_finger
  let is_clean_trial :=
    ¬is_wrong_finger ∧ ¬coupled_keypress ∧ motion_leakage_ratio.le MLR_THRESHOLD
  let is_clean_trial_angle :=
    ¬is_wrong_finger ∧ ¬coupled_keypress ∧ angle_based_mlr.le MLR_THRESHOLD
  { reaction_time_ms := reaction_time_ms
    target_finger := target_finger
    pressed_finger := pressed_finger
    is_wrong_finger := is_wrong_finger
    target_path_length := target_path_length
    non_target_path_lengths := non_target_path_lengths
    motion_leakage_ratio := motion_leakage_ratio
    target_angle_path := target_angle_path
    non_target_angle_paths := non_target_angle_paths
    angle_based_mlr := angle_based_mlr
    coupled_keypress := coupled_keypress
    is_clean_trial := is_clean_trial
    is_clean_trial_angle := is_clean_trial_angle }

/-! ## Hand tracker state (`src/tracking/hand_tracker.py`) -/

/-- The fields of `HandTracker` that the buffer, press-detection and
kinematics paths read or write.  Python dicts keyed by finger name (all ten
keys always present) become total functions out of `String`. -/
structure HandTrackerState where
  hands_visible : String → Bool
  finger_states : String → Bool
  finger_positions : String → Vec3
  finger_relative_y : String → ℝ
  finger_angles : String → ℝ
  last_press_time : String → ℝ
  last_press_timestamp_ms : String → ℝ
  frame_buffer : List FrameSnapshot
  last_buffer_sample_time : ℝ

/-- `HandTracker.__init__`: hands invisible, all fingers unpressed at the
origin with angle `0`, last press times `0`, empty buffer. -/
def handTrackerInit : HandTrackerState where
  hands_visible := fun _ => false
  finger_states := fun _ => false
  finger_positions := fun _ => ⟨0, 0, 0⟩
  finger_relative_y := fun _ => 0
  finger_angles := fun _ => 0
  last_press_time := fun _ => 0
  last_press_timestamp_ms := fun _ => 0
  frame_buffer := []
  last_buffer_sample_time := 0

/-- One `collections.deque(maxlen=m)` append: add at the tail and, if the
capacity is exceeded, drop from the head. -/
def deque_append (maxlen : ℕ) (l : List FrameSnapshot) (x : FrameSnapshot) :
    List FrameSnapshot :=
  let l' := l ++ [x]
  if maxlen < l'.length then l'.drop (l'.length - maxlen) else l'

/-- The `FrameSnapshot` built by `HandTracker._add_frame_to_buffer`: one
`FingerSnapshot` is added for every name in `FINGER_NAMES`, from the
tracker's current (last-known or default) per-finger dicts. -/
def make_frame (s : HandTrackerState) (timestamp_ms : ℝ) : FrameSnapshot :=
  FINGER_NAMES.foldl
    (fun frame finger_name =>
      frame.add_finger
        ⟨finger_name, s.finger_positions finger_name,
          s.finger_angles finger_name, s.finger_states finger_name⟩)
    ⟨timestamp_ms, fun _ => none⟩

/-- `HandTracker._add_frame_to_buffer`. -/
def add_frame_to_buffer (s : HandTrackerState) (timestamp_ms : ℝ) :
    HandTrackerState :=
  { s with frame_buffer :=
      deque_append BUFFER_MAXLEN s.frame_buffer (make_frame s timestamp_ms) }

/-- The buffer-sampling step at the end of `HandTracker.update` (lines
152–154): sample a frame only when at least `FRAME_SAMPLE_RATE_MS` have
elapsed since the last sample. -/
def buffer_sample_step (s : HandTrackerState) (current_time : ℝ) :
    HandTrackerState :=
  if current_time - s.last_buffer_sample_time ≥ (FRAME_SAMPLE_RATE_MS : ℝ) then
    { add_frame_to_buffer s current_time with
        last_buffer_sample_time := current_time }
  else s

/-- `HandTracker.get_frames_in_window` as a pure function of the buffer:
keep, in buffer order, the frames whose timestamp lies in
`[center - before, center + after]`. -/
def get_frames_in_window_pure (buffer : List FrameSnapshot)
    (center_time_ms before_ms after_ms : ℝ) : List FrameSnapshot :=
  let window_start := center_time_ms - before_ms
  let window_end := center_time_ms + after_ms
  buffer.filter
    (fun f => decide (window_start ≤ f.timestamp_ms ∧ f.timestamp_ms ≤ window_end))

/-! ## Press detector (per-finger slice of `HandTracker.update`) -/

/-- The per-finger state read and written by the press-detection block of
`HandTracker.update` (lines 136–147): the previous `finger_states` boolean
and the two last-press clocks. -/
structure PressState where
  was_pressed : Bool
  last_press_time : ℝ
  last_press_timestamp_ms : ℝ

/-- The per-finger initial state from `HandTracker.__init__`:
`finger_states[name] = False`, `last_press_time[name] = 0`. -/
def pressStateInit : PressState where
  was_pressed := false
  last_press_time := 0
  last_press_timestamp_ms := 0

/-- One tick of the press-detection block of `HandTracker.update` for one
finger: compute `is_pressed` from angle-from-baseline against the threshold,
fire an event only on a false→true transition that clears the debounce, and
always store `is_pressed` back into `finger_states`.  Returns whether a press
event fired. -/
def press_detect_step (st : PressState)
    (current_time angle_from_baseline angle_threshold : ℝ) :
    Bool × PressState :=
  let is_pressed : Bool := decide (angle_from_baseline ≥ angle_threshold)
  if is_pressed && !st.was_pressed then
    if current_time - st.last_press_time ≥ PRESS_DEBOUNCE_TIME then
      (true, ⟨is_pressed, current_time, current_time⟩)
    else
      (false, ⟨is_pressed, st.last_press_time, st.last_press_timestamp_ms⟩)
  else
    (false, ⟨is_pressed, st.last_press_time, st.last_press_timestamp_ms⟩)

/-- A sequence of update ticks for one finger: each tick supplies the wall
clock, the angle-from-baseline and the threshold.  Returns the timestamps of
the fired press events, in order, with the final per-finger state. -/
def press_detect_run (st : PressState) (ticks : List (ℝ × ℝ × ℝ)) :
    List ℝ × PressState :=
  ticks.foldl
    (fun acc tick =>
      let r := press_detect_step acc.2 tick.1 tick.2.1 tick.2.2
      (if r.1 then acc.1 ++ [tick.1] else acc.1, r.2))
    ([], st)

/-! ## Flexion-angle estimator (`HandTracker._calculate_flexion_angle`) -/

/-- The vector magnitude used by the normalisation guard. -/
def vec_magnitude (v : Vec3) : ℝ :=
  Real.sqrt (v.x ^ 2 + v.y ^ 2 + v.z ^ 2)

/-- The inner `normalize` of `_calculate_flexion_angle`: a vector of
magnitude below `0.0001` becomes the zero vector. -/
def normalize (v : Vec3) : Vec3 :=
  let mag := vec_magnitude v
  if mag < 0.0001 then ⟨0, 0, 0⟩ else ⟨v.x / mag, v.y / mag, v.z / mag⟩

/-- The dot product of the two normalised bone directions. -/
def dot_normalized (d1 d2 : Vec3) : ℝ :=
  let n1 := normalize d1
  let n2 := normalize d2
  n1.x * n2.x + n1.y * n2.y + n1.z * n2.z

/-- `dot = max(-1.0, min(1.0, dot))`: the clamp before `acos`. -/
def clamped_dot (d1 d2 : Vec3) : ℝ :=
  max (-1) (min 1 (dot_normalized d1 d2))

/-- `math.degrees`. -/
def degrees (r : ℝ) : ℝ := r * 180 / Real.pi

/-- `HandTracker._calculate_flexion_angle`:
`degrees(acos(clamp(dot(normalize(dir1), normalize(dir2)))))`. -/
def calculate_flexion_angle (d1 d2 : Vec3) : ℝ :=
  degrees (Real.arccos (clamped_dot d1 d2))

/-! ## Calibration state machine (`src/tracking/calibration.py`) -/

/-- `LEFT_FINGERS` from `src/tracking/calibration.py`. -/
def LEFT_FINGERS : List String :=
  ["left_pinky", "left_ring", "left_middle", "left_index", "left_thumb"]

/-- `RIGHT_FINGERS` from `src/tracking/calibration.py`. -/
def RIGHT_FINGERS : List String :=
  ["right_thumb", "right_index", "right_middle", "right_ring", "right_pinky"]

/-- The instance constant `self.baseline_duration = 10.0` (seconds). -/
def baseline_duration : ℝ := 10.0

/-- The instance constant `self.sample_delay = 0.05` (seconds). -/
def sample_delay : ℝ := 0.05

/-- The instance constant `self.hold_time_required = 0.5` (seconds). -/
def hold_time_required : ℝ := 0.5

/-- The instance constant `self.countdown_duration = 5.0` (seconds). -/
def countdown_duration : ℝ := 5.0

/-- One hand record of the tracking data passed into the calibration
manager: only the palm position is consulted by the baseline phases. -/
structure HandData where
  palm_position : Option Vec3

/-- The per-finger record stored into `self.calibration_data[finger_name]`
by `CalibrationManager._calibrate_current_finger`. -/
structure CalibRecord where
  baseline_angle : ℝ
  calibrated_angle : ℝ
  angle_threshold : ℝ
  recorded_press_angle : ℝ

/-- The payload `CalibrationManager._save_calibration` serialises to the
calibration file. -/
structure PersistedCalib where
  thresholds : String → ℝ
  angle_thresholds : String → ℝ
  baseline_angles : String → Option ℝ
  calibration_data : String → Option CalibRecord
  palm_positions : String → Option Vec3

/-- The fields of `CalibrationManager` that the calibration state machine
reads or writes.  The `persisted` field models the calibration file on disk:
`_save_calibration` (file write) sets it, nothing else touches it. -/
structure CalibState where
  calibrating : Bool
  calibration_phase : String
  current_finger_index : ℕ
  countdown_start : ℝ
  baseline_samples : String → List ℝ
  baseline_start_time : ℝ
  left_baseline_captured : Bool
  right_baseline_captured : Bool
  thresholds : String → ℝ
  angle_thresholds : String → ℝ
  baseline_angles : String → Option ℝ
  palm_position_samples : String → List Vec3
  calibrated_palm_positions : String → Option Vec3
  calibration_data : String → Option CalibRecord
  threshold_reached_time : Option ℝ
  last_sample_time : ℝ
  phase_start_time : ℝ
  is_calibrated : Bool
  current_finger_angle : ℝ
  current_finger_angle_from_baseline : ℝ
  persisted : Option PersistedCalib

/-- The mean of a palm-position sample list, coordinatewise
(`avg_x, avg_y, avg_z` in `_update_baseline_capture`). -/
def palmAverage (samples : List Vec3) : Vec3 :=
  ⟨(samples.map Vec3.x).sum / samples.length,
   (samples.map Vec3.y).sum / samples.length,
   (samples.map Vec3.z).sum / samples.length⟩

/-- `CalibrationManager._update_baseline_capture`.  On expiry of the 10s
window it averages the collected angle samples per finger of the given hand
(defaulting to `0` when a finger collected no samples), averages the palm
samples, and advances the phase; before expiry it collects one sample per
finger every `sample_delay` seconds while the hand is visible.  Returns
`True` (calibration still in progress) with the new state.

The source briefly assigns `calibration_phase = 'countdown_right'` and then
immediately overwrites it with `'baseline_right'` in the same branch; the
embedding keeps the net effect. -/
def update_baseline_capture (s : CalibState) (hand_data : String → Option HandData)
    (finger_angles : String → ℝ) (current_time : ℝ) (hand_type : String) :
    Bool × CalibState :=
  let fingers := if hand_type = "left" then LEFT_FINGERS else RIGHT_FINGERS
  let hand := hand_data hand_type
  if current_time - s.baseline_start_time ≥ baseline_duration then
    let new_baseline_angles : String → Option ℝ := fun n =>
      if n ∈ fingers then
        if s.baseline_samples n ≠ [] then
          some ((s.baseline_samples n).sum / (s.baseline_samples n).length)
        else some 0
      else s.baseline_angles n
    let palm_samples := s.palm_position_samples hand_type
    let new_palm_positions : String → Option Vec3 := fun h =>
      if h = hand_type ∧ palm_samples ≠ [] then some (palmAverage palm_samples)
      else s.calibrated_palm_positions h
    if hand_type = "left" then
      (true,
        { s with
            baseline_angles := new_baseline_angles
            calibrated_palm_positions := new_palm_positions
            left_baseline_captured := true
            calibration_phase := "baseline_right"
            baseline_start_time := current_time })
    else
      (true,
        { s with
            baseline_angles := new_baseline_angles
            calibrated_palm_positions := new_palm_positions
            right_baseline_captured := true
            calibration_phase := "calibrating_finger"
            current_finger_index := 0
            phase_start_time := current_time })
  else
    if hand.isSome ∧ current_time - s.last_sample_time ≥ sample_delay then
      let new_samples : String → List ℝ := fun n =>
        if n ∈ fingers then s.baseline_samples n ++ [finger_angles n]
        else s.baseline_samples n
      let new_palm_samples : String → List Vec3 := fun h =>
        match hand with
        | some hd =>
          match hd.palm_position with
          | some p => if h = hand_type then s.palm_position_samples h ++ [p]
                      else s.palm_position_samples h
          | none => s.palm_position_samples h
        | none => s.palm_position_samples h
      (true,
        { s with
            last_sample_time := current_time
            baseline_samples := new_samples
            palm_position_samples := new_palm_samples })
    else (true, s)

/-- `CalibrationManager._save_calibration`: the payload written to the
calibration file (modelled by the `persisted` field). -/
def save_calibration (s : CalibState) : CalibState :=
  let payload : PersistedCalib :=
    { thresholds := s.thresholds
      angle_thresholds := s.angle_thresholds
      baseline_angles := s.baseline_angles
      calibration_data := s.calibration_data
      palm_positions := s.calibrated_palm_positions }
  { s with persisted := some payload }

/-- `CalibrationManager._complete_calibration`. -/
def complete_calibration (s : CalibState) : CalibState :=
  save_calibration
    { s with
        calibrating := false
        calibration_phase := "complete"
        is_calibrated := true }

/-- `CalibrationManager.cancel_calibration`. -/
def cancel_calibration (s : CalibState) : CalibState :=
  { s with
      calibrating := false
      calibration_phase := "idle"
      current_finger_index := 0
      baseline_samples := fun _ => []
      threshold_reached_time := none }

/-! ## State-passing wrappers for the kinematics entry points -/

/-- The aggregate state visible to the kinematics processor: the hand
tracker it reads the frame buffer from, plus the calibration manager
(which `calculate_trial_metrics` never touches). -/
structure SystemState where
  tracker : HandTrackerState
  calibration : CalibState

/-- `HandTracker.get_frames_in_window`, threading the full system state:
the method only reads `self.frame_buffer` and builds a local list. -/
def get_frames_in_window_run (s : SystemState)
    (center_time_ms before_ms after_ms : ℝ) :
    List FrameSnapshot × SystemState :=
  (get_frames_in_window_pure s.tracker.frame_buffer center_time_ms before_ms
    after_ms, s)

/-- `KinematicsProcessor.calculate_trial_metrics`, threading the full system
state: fetch the window from the tracker's buffer, then compute the metrics
purely from the windowed frames and the four arguments. -/
def calculate_trial_metrics_run (s : SystemState) (press_timestamp_ms : ℝ)
    (target_finger pressed_finger : String) (missile_spawn_time_ms : ℝ) :
    TrialMetrics × SystemState :=
  let r := get_frames_in_window_run s press_timestamp_ms WINDOW_BEFORE_MS
    WINDOW_AFTER_MS
  (calc_metrics_from_frames r.1 press_timestamp_ms target_finger pressed_finger
    missile_spawn_time_ms, r.2)

/-! ## Test fixtures -/

/-- `CalibrationManager.__init__` in the fresh state (no calibration file on
disk, so `_load_calibration` leaves the defaults in place). -/
def calibManagerInit : CalibState where
  calibrating := false
  calibration_phase := "idle"
  current_finger_index := 0
  countdown_start := 0
  baseline_samples := fun _ => []
  baseline_start_time := 0
  left_baseline_captured := false
  right_baseline_captured := false
  thresholds := fun _ => FINGER_PRESS_THRESHOLD
  angle_thresholds := fun _ => FINGER_PRESS_ANGLE_THRESHOLD
  baseline_angles := fun _ => none
  palm_position_samples := fun _ => []
  calibrated_palm_positions := fun _ => none
  calibration_data := fun _ => none
  threshold_reached_time := none
  last_sample_time := 0
  phase_start_time := 0
  is_calibrated := false
  current_finger_angle := 0
  current_finger_angle_from_baseline := 0
  persisted := none

/-- A freshly initialised system: tracker and calibration manager. -/
def systemInit : SystemState where
  tracker := handTrackerInit
  calibration := calibManagerInit

/-- A frame in which a single finger is tracked at a given position (the
other nine map entries are absent). -/
def oneFingerFrame (ts : ℝ) (name : String) (pos : Vec3) : FrameSnapshot where
  timestamp_ms := ts
  fingers := fun n => if n = name then some ⟨name, pos, 0, false⟩ else none

end LeapTracking

namespace LeapTracking

/-! ## Helper lemmas -/

/-- Reading a one-finger frame's map. -/
theorem get_finger_oneFingerFrame (ts : ℝ) (name n : String) (pos : Vec3) :
    (oneFingerFrame ts name pos).get_finger n =
      if n = name then some ⟨name, pos, 0, false⟩ else none := rfl

/-- A sorted frame list is left untouched by the sort-by-timestamp step. -/
theorem sortFramesByTime_eq_self {frames : List FrameSnapshot}
    (h : List.Sorted
      (fun a b : FrameSnapshot => a.timestamp_ms ≤ b.timestamp_ms) frames) :
    sortFramesByTime frames = frames := by
  rw [sortFramesByTime, List.Sorted.insertionSort_eq h]

/-- On frames already in timestamp order, the per-finger path length is the
sum of the consecutive-pair distance contributions. -/
theorem calculate_all_path_lengths_sorted (frames : List FrameSnapshot)
    (name : String)
    (h : List.Sorted
      (fun a b : FrameSnapshot => a.timestamp_ms ≤ b.timestamp_ms) frames) :
    calculate_all_path_lengths frames name =
      (List.zipWith (pathContrib name) frames frames.tail).sum := by
  match frames with
  | [] => simp [calculate_all_path_lengths]
  | [f] => simp [calculate_all_path_lengths]
  | f0 :: f1 :: rest =>
    rw [calculate_all_path_lengths, if_neg (by simp), sortFramesByTime_eq_self h]

/-- The path length over exactly two frames in timestamp order. -/
theorem calculate_all_path_lengths_two (f0 f1 : FrameSnapshot) (name : String)
    (h : f0.timestamp_ms ≤ f1.timestamp_ms) :
    calculate_all_path_lengths [f0, f1] name = pathContrib name f0 f1 := by
  rw [calculate_all_path_lengths_sorted _ _ (by simp [List.sorted_cons, h])]
  simp

/-! ## Theorems -/

/-- C10 claim: `calculate_trial_metrics` and `get_frames_in_window` are
read-only — the system state (frame buffer, pressed states, last-press
timestamps, calibration data) is returned unchanged — and for a fixed buffer
the returned `TrialMetrics` is a deterministic function of the four arguments
and the buffered frames. -/
theorem trial_metrics_read_only (s : SystemState)
    (press_timestamp_ms : ℝ) (target_finger pressed_finger : String)
    (missile_spawn_time_ms : ℝ) (c b a : ℝ) :
    (get_frames_in_window_run s c b a).2 = s ∧
    (get_frames_in_window_run s c b a).1 =
      get_frames_in_window_pure s.tracker.frame_buffer c b a ∧
    (calculate_trial_metrics_run s press_timestamp_ms target_finger
      pressed_finger missile_spawn_time_ms).2 = s ∧
    (calculate_trial_metrics_run s press_timestamp_ms target_finger
      pressed_finger missile_spawn_time_ms).1 =
      calc_metrics_from_frames
        (get_frames_in_window_pure s.tracker.frame_buffer press_timestamp_ms
          WINDOW_BEFORE_MS WINDOW_AFTER_MS)
        press_timestamp_ms target_finger pressed_finger missile_spawn_time_ms :=
  ⟨rfl, rfl, rfl, rfl⟩

/-- C1 claim: the returned `is_clean_trial` holds exactly when the target
finger equals the pressed finger, `coupled_keypress` is false and the
motion-leakage ratio is at most `0.10`; whenever target and pressed differ,
`is_wrong_finger` holds and `is_clean_trial` fails regardless of the MLR. -/
theorem clean_trial_characterization (s : SystemState)
    (press_timestamp_ms : ℝ) (target_finger pressed_finger : String)
    (missile_spawn_time_ms : ℝ) :
    ((calculate_trial_metrics_run s press_timestamp_ms target_finger
        pressed_finger missile_spawn_time_ms).1.is_clean_trial ↔
      (target_finger = pressed_finger ∧
        ¬(calculate_trial_metrics_run s press_timestamp_ms target_finger
            pressed_finger missile_spawn_time_ms).1.coupled_keypress ∧
        FloatVal.le
          (calculate_trial_metrics_run s press_timestamp_ms target_finger
            pressed_finger missile_spawn_time_ms).1.motion_leakage_ratio
          0.10)) ∧
    (target_finger ≠ pressed_finger →
      (calculate_trial_metrics_run s press_timestamp_ms target_finger
        pressed_finger missile_spawn_time_ms).1.is_wrong_finger ∧
      ¬(calculate_trial_metrics_run s press_timestamp_ms target_finger
          pressed_finger missile_spawn_time_ms).1.is_clean_trial) := by
  constructor
  · constructor
    · intro h
      obtain ⟨h1, h2, h3⟩ := h
      exact ⟨not_ne_iff.mp h1, h2, h3⟩
    · intro h
      exact ⟨not_ne_iff.mpr h.1, h.2.1, h.2.2⟩
  · intro hne
    refine ⟨hne, fun h => ?_⟩
    obtain ⟨h1, _, _⟩ := h
    exact h1 hne

/-- C1 claim: witness: at the spec's scenario (`target_finger = right_index`,
`pressed_finger = right_middle`, press at 350ms), `is_wrong_finger` holds and
the trial is not clean. -/
theorem clean_trial_characterization_witness :
    ("right_index" : String) ≠ "right_middle" ∧
    (calculate_trial_metrics_run systemInit 350 "right_index" "right_middle"
      0).1.is_wrong_finger ∧
    ¬(calculate_trial_metrics_run systemInit 350 "right_index" "right_middle"
        0).1.is_clean_trial :=
  ⟨by decide,
    (clean_trial_characterization systemInit 350 "right_index" "right_middle"
      0).2 (by decide)⟩

/-- C2 claim: the returned motion-leakage ratio is
`sum(non_target_path_lengths) / target_path_length` when the target path
length exceeds the `0.001`mm epsilon, positive infinity when the target path
length is at or below the epsilon and the non-target sum is positive, and
`0` when the target path length is at or below the epsilon and the
non-target sum is zero. -/
theorem mlr_definition (s : SystemState) (press_timestamp_ms : ℝ)
    (target_finger pressed_finger : String) (missile_spawn_time_ms : ℝ) :
    let frames := get_frames_in_window_pure s.tracker.frame_buffer
      press_timestamp_ms WINDOW_BEFORE_MS WINDOW_AFTER_MS
    let T := path_lengths_get frames target_finger
    let N := dictValuesSum (non_target_paths frames target_finger)
    let mlr := (calculate_trial_metrics_run s press_timestamp_ms target_finger
      pressed_finger missile_spawn_time_ms).1.motion_leakage_ratio
    (T > 0.001 → mlr = FloatVal.fin (N / T)) ∧
    (T ≤ 0.001 → N > 0 → mlr = FloatVal.inf) ∧
    (T ≤ 0.001 → N = 0 → mlr = FloatVal.fin 0) := by
  dsimp only
  have hrw : (get_frames_in_window_run s press_timestamp_ms WINDOW_BEFORE_MS
      WINDOW_AFTER_MS).1 = get_frames_in_window_pure s.tracker.frame_buffer
      press_timestamp_ms WINDOW_BEFORE_MS WINDOW_AFTER_MS := rfl
  refine ⟨?_, ?_, ?_⟩
  · intro hT
    show (if _ > (0.001 : ℝ) then _ else _) = _
    rw [hrw, if_pos hT]
  · intro hT hN
    show (if _ > (0.001 : ℝ) then _ else _) = _
    rw [hrw, if_neg (not_lt.mpr hT), if_pos hN]
  · intro hT hN
    show (if _ > (0.001 : ℝ) then _ else _) = _
    rw [hrw, if_neg (not_lt.mpr hT), if_neg (by rw [hN]; exact lt_irrefl 0)]

/-- First fixture frame for the MLR witness: `right_middle` at the origin at
`t = 0`. -/
def mlrFrameA : FrameSnapshot := oneFingerFrame 0 "right_middle" ⟨0, 0, 0⟩

/-- Second fixture frame for the MLR witness: `right_middle` moved 5mm in `y`
at `t = 16`. -/
def mlrFrameB : FrameSnapshot := oneFingerFrame 16 "right_middle" ⟨0, 5, 0⟩

/-- A system whose frame buffer holds the two MLR fixture frames. -/
def mlrState : SystemState :=
  { systemInit with tracker :=
      { handTrackerInit with frame_buffer := [mlrFrameA, mlrFrameB] } }

/-- The window query returns both MLR fixture frames. -/
theorem mlr_frames_eval :
    get_frames_in_window_pure [mlrFrameA, mlrFrameB] 100 WINDOW_BEFORE_MS
      WINDOW_AFTER_MS = [mlrFrameA, mlrFrameB] := by
  rw [get_frames_in_window_pure]
  refine List.filter_eq_self.mpr ?_
  intro f hf
  fin_cases hf <;>
    exact decide_eq_true
      (by constructor <;>
        norm_num [mlrFrameA, mlrFrameB, oneFingerFrame, WINDOW_BEFORE_MS,
          WINDOW_AFTER_MS])

/-- Both fixture path lengths reduce to a single pair contribution. -/
theorem mlr_path_two (n : String) :
    calculate_all_path_lengths [mlrFrameA, mlrFrameB] n =
      pathContrib n mlrFrameA mlrFrameB :=
  calculate_all_path_lengths_two _ _ _
    (by norm_num [mlrFrameA, mlrFrameB, oneFingerFrame])

/-- The moving finger's contribution in the MLR fixture is 5mm. -/
theorem mlr_dist_eval : euclidean_distance ⟨0, 0, 0⟩ ⟨0, 5, 0⟩ = 5 := by
  show Real.sqrt ((0 - 0) ^ 2 + (5 - 0) ^ 2 + (0 - 0) ^ 2) = 5
  rw [show ((0:ℝ) - 0) ^ 2 + ((5:ℝ) - 0) ^ 2 + ((0:ℝ) - 0) ^ 2 = 5 ^ 2 by
    norm_num]
  exact Real.sqrt_sq (by norm_num)

/-- The target path length in the MLR fixture is `0` (the target finger is
absent from both frames). -/
theorem mlr_target_eval :
    path_lengths_get [mlrFrameA, mlrFrameB] "right_index" = 0 := by
  rw [path_lengths_get, if_pos (by decide), mlr_path_two]
  simp [pathContrib, FrameSnapshot.get_finger, mlrFrameA, mlrFrameB,
    oneFingerFrame]

/-- The non-target path sum in the MLR fixture is 5mm. -/
theorem mlr_nontarget_eval :
    dictValuesSum (non_target_paths [mlrFrameA, mlrFrameB] "right_index") =
      5 := by
  rw [non_target_paths,
    show FINGER_NAMES.filter (fun n => n ≠ "right_index") =
      ["left_pinky", "left_ring", "left_middle", "left_index", "left_thumb",
       "right_thumb", "right_middle", "right_ring", "right_pinky"] by decide]
  simp only [dictValuesSum, List.map, List.sum_cons, List.sum_nil, mlr_path_two]
  simp [pathContrib, FrameSnapshot.get_finger, mlrFrameA, mlrFrameB,
    oneFingerFrame, mlr_dist_eval]

/-- C2 claim: witness: with a fixture buffer where the target finger never moves
and another finger travels 5mm, the target path length is at most the epsilon,
the non-target sum is positive, and the returned MLR is infinite. -/
theorem mlr_definition_witness :
    (calculate_trial_metrics_run mlrState 100 "right_index" "right_middle"
      0).1.motion_leakage_ratio = FloatVal.inf := by
  have h := (mlr_definition mlrState 100 "right_index" "right_middle" 0).2.1
  rw [show mlrState.tracker.frame_buffer = [mlrFrameA, mlrFrameB] from rfl,
    mlr_frames_eval] at h
  exact h (by rw [mlr_target_eval]; norm_num)
    (by rw [mlr_nontarget_eval]; norm_num)

/-- Vertical motion has Euclidean distance equal to the `y` displacement. -/
theorem dist_y (y1 y2 : ℝ) (h : y1 ≤ y2) :
    euclidean_distance ⟨0, y1, 0⟩ ⟨0, y2, 0⟩ = y2 - y1 := by
  show Real.sqrt ((0 - 0) ^ 2 + (y2 - y1) ^ 2 + (0 - 0) ^ 2) = y2 - y1
  rw [show ((0:ℝ) - 0) ^ 2 + (y2 - y1) ^ 2 + ((0:ℝ) - 0) ^ 2 = (y2 - y1) ^ 2
    by ring]
  exact Real.sqrt_sq (by linarith)

/-- Path fixture: the target finger at `(0,0,0)` at `t = 0`. -/
def pathFrame0 : FrameSnapshot := oneFingerFrame 0 "right_index" ⟨0, 0, 0⟩

/-- Path fixture: the target finger at `(0,10,0)` at `t = 16`. -/
def pathFrame1 : FrameSnapshot := oneFingerFrame 16 "right_index" ⟨0, 10, 0⟩

/-- Path fixture: the target finger at `(0,20,0)` at `t = 32`. -/
def pathFrame2 : FrameSnapshot := oneFingerFrame 32 "right_index" ⟨0, 20, 0⟩

/-- The three path fixture frames are in timestamp order. -/
theorem pathFrames_sorted :
    List.Sorted (fun a b : FrameSnapshot => a.timestamp_ms ≤ b.timestamp_ms)
      [pathFrame0, pathFrame1, pathFrame2] := by
  simp [List.sorted_cons, pathFrame0, pathFrame1, pathFrame2, oneFingerFrame]
  norm_num

/-- C3 claim: a finger's path length is the sum of the Euclidean distances
between its tip positions in consecutive-in-time frames (the frames ordered
by timestamp — an already-sorted list is processed in place), and the spec's
example — the target finger moving `(0,0,0) → (0,10,0) → (0,20,0)` over
three frames — yields a target path length of `20.0`mm, total motion rather
than net displacement. -/
theorem path_length_consecutive_in_time :
    (∀ (frames : List FrameSnapshot) (name : String),
      List.Sorted (fun a b : FrameSnapshot => a.timestamp_ms ≤ b.timestamp_ms)
        frames →
      calculate_all_path_lengths frames name =
        (List.zipWith (pathContrib name) frames frames.tail).sum) ∧
    calculate_all_path_lengths [pathFrame0, pathFrame1, pathFrame2]
      "right_index" = 20 := by
  constructor
  · exact fun frames name h => calculate_all_path_lengths_sorted frames name h
  · rw [calculate_all_path_lengths_sorted _ _ pathFrames_sorted]
    have h01 : pathContrib "right_index" pathFrame0 pathFrame1 = 10 := by
      simp only [pathContrib, FrameSnapshot.get_finger, pathFrame0, pathFrame1,
        oneFingerFrame]
      simp
      rw [dist_y 0 10 (by norm_num)]
      norm_num
    have h12 : pathContrib "right_index" pathFrame1 pathFrame2 = 10 := by
      simp only [pathContrib, FrameSnapshot.get_finger, pathFrame1, pathFrame2,
        oneFingerFrame]
      simp
      rw [dist_y 10 20 (by norm_num)]
      norm_num
    simp only [List.zipWith, List.sum_cons, List.sum_nil, h01, h12]
    norm_num

/-- C3 claim: witness: the general consecutive-pair formula applied to the
concrete sorted fixture list. -/
theorem path_length_consecutive_in_time_witness :
    calculate_all_path_lengths [pathFrame0, pathFrame1, pathFrame2]
      "right_middle" =
      (List.zipWith (pathContrib "right_middle")
        [pathFrame0, pathFrame1, pathFrame2] [pathFrame1, pathFrame2]).sum :=
  path_length_consecutive_in_time.1 _ _ pathFrames_sorted

/-- A press-detection tick on a rising edge past the debounce fires and
stamps both press clocks. -/
theorem press_step_fires {st : PressState} {t a th : ℝ}
    (h1 : st.was_pressed = false) (h2 : a ≥ th)
    (h3 : t - st.last_press_time ≥ PRESS_DEBOUNCE_TIME) :
    press_detect_step st t a th = (true, ⟨true, t, t⟩) := by
  simp [press_detect_step, h1, decide_eq_true h2, h3]

/-- A tick below threshold never fires and clears the pressed flag. -/
theorem press_step_no_fire_below {st : PressState} {t a th : ℝ}
    (h2 : ¬a ≥ th) :
    press_detect_step st t a th =
      (false, ⟨false, st.last_press_time, st.last_press_timestamp_ms⟩) := by
  simp [press_detect_step, decide_eq_false h2]

/-- A rising edge inside the debounce interval is suppressed: no event, no
clock update, but the pressed flag is still stored. -/
theorem press_step_no_fire_debounce {st : PressState} {t a th : ℝ}
    (h1 : st.was_pressed = false) (h2 : a ≥ th)
    (h3 : ¬t - st.last_press_time ≥ PRESS_DEBOUNCE_TIME) :
    press_detect_step st t a th =
      (false, ⟨true, st.last_press_time, st.last_press_timestamp_ms⟩) := by
  simp [press_detect_step, h1, decide_eq_true h2, h3]

/-- A tick on which the finger was already pressed never fires. -/
theorem press_step_held {st : PressState} {t a th : ℝ}
    (h1 : st.was_pressed = true) :
    (press_detect_step st t a th).1 = false := by
  simp [press_detect_step, h1]

/-- Running ticks from an arbitrary event accumulator prepends it. -/
theorem press_detect_run_acc (l : List ℝ) (st : PressState)
    (ticks : List (ℝ × ℝ × ℝ)) :
    ticks.foldl
      (fun acc tick =>
        let r := press_detect_step acc.2 tick.1 tick.2.1 tick.2.2
        (if r.1 then acc.1 ++ [tick.1] else acc.1, r.2)) (l, st) =
      (l ++ (press_detect_run st ticks).1, (press_detect_run st ticks).2) := by
  induction ticks generalizing l st with
  | nil => simp [press_detect_run]
  | cons tick rest ih =>
    rw [press_detect_run, List.foldl_cons, List.foldl_cons]
    dsimp only
    rw [ih, ih]
    cases hfire : (press_detect_step st tick.1 tick.2.1 tick.2.2).1 <;> simp

/-- Unfolding one tick of `press_detect_run`. -/
theorem press_detect_run_cons (st : PressState) (t a th : ℝ)
    (rest : List (ℝ × ℝ × ℝ)) :
    press_detect_run st ((t, a, th) :: rest) =
      ((if (press_detect_step st t a th).1 then [t] else []) ++
          (press_detect_run (press_detect_step st t a th).2 rest).1,
        (press_detect_run (press_detect_step st t a th).2 rest).2) := by
  rw [press_detect_run, List.foldl_cons]
  dsimp only
  rw [press_detect_run_acc]
  cases hfire : (press_detect_step st t a th).1 <;> simp

/-- `press_detect_run` on no ticks. -/
theorem press_detect_run_nil (st : PressState) :
    press_detect_run st [] = ([], st) := rfl

/-- C4 claim: a press event fires only on a false→true transition of the
finger's pressed state with at least `PRESS_DEBOUNCE_TIME = 200`ms elapsed
since that finger's last fired press (whose clock it then updates); and for
a signal crossing threshold at `t = b`, again at `b + 100` and again at
`b + 250` (released in between), exactly two events fire, at `b` and
`b + 250`.  (`b` is the wall-clock time of the first crossing;
`HandTracker.__init__` starts the per-finger clock at `0`, so the first
crossing fires whenever the wall clock has passed the debounce interval.) -/
theorem press_event_debounce :
    (∀ (st : PressState) (t a th : ℝ),
      (press_detect_step st t a th).1 = true →
      st.was_pressed = false ∧ a ≥ th ∧
      t - st.last_press_time ≥ PRESS_DEBOUNCE_TIME ∧
      (press_detect_step st t a th).2.last_press_time = t) ∧
    (∀ b : ℝ, 200 ≤ b →
      (press_detect_run pressStateInit
        [(b, 40, 30), (b + 50, 0, 30), (b + 100, 40, 30), (b + 150, 0, 30),
         (b + 250, 40, 30)]).1 = [b, b + 250]) := by
  constructor
  · intro st t a th hf
    by_cases hp : a ≥ th
    · cases hw : st.was_pressed with
      | true => rw [press_step_held hw] at hf; exact absurd hf (by simp)
      | false =>
        by_cases hd : t - st.last_press_time ≥ PRESS_DEBOUNCE_TIME
        · exact ⟨rfl, hp, hd, by rw [press_step_fires hw hp hd]⟩
        · rw [press_step_no_fire_debounce hw hp hd] at hf
          simp at hf
    · rw [press_step_no_fire_below hp] at hf
      simp at hf
  · intro b hb
    have s1 : press_detect_step pressStateInit b 40 30 = (true, ⟨true, b, b⟩) :=
      press_step_fires rfl (by norm_num)
        (by show b - (0:ℝ) ≥ PRESS_DEBOUNCE_TIME
            rw [PRESS_DEBOUNCE_TIME]; linarith)
    have s2 : press_detect_step ⟨true, b, b⟩ (b + 50) 0 30 =
        (false, ⟨false, b, b⟩) := press_step_no_fire_below (by norm_num)
    have s3 : press_detect_step ⟨false, b, b⟩ (b + 100) 40 30 =
        (false, ⟨true, b, b⟩) :=
      press_step_no_fire_debounce rfl (by norm_num)
        (by rw [show b + 100 - b = (100:ℝ) by ring, PRESS_DEBOUNCE_TIME]
            norm_num)
    have s4 : press_detect_step ⟨true, b, b⟩ (b + 150) 0 30 =
        (false, ⟨false, b, b⟩) := press_step_no_fire_below (by norm_num)
    have s5 : press_detect_step ⟨false, b, b⟩ (b + 250) 40 30 =
        (true, ⟨true, b + 250, b + 250⟩) :=
      press_step_fires rfl (by norm_num)
        (by rw [show b + 250 - b = (250:ℝ) by ring, PRESS_DEBOUNCE_TIME]
            norm_num)
    simp [press_detect_run_cons, press_detect_run_nil, s1, s2, s3, s4, s5]

/-- C4 claim: witness: the scenario instantiated at wall-clock base `b = 200`:
exactly the two events at `200` and `450` fire. -/
theorem press_event_debounce_witness :
    (press_detect_run pressStateInit
      [((200:ℝ), 40, 30), (200 + 50, 0, 30), (200 + 100, 40, 30),
       (200 + 150, 0, 30), (200 + 250, 40, 30)]).1 = [200, 200 + 250] :=
  press_event_debounce.2 200 (by norm_num)

/-- A bounded deque append never exceeds its capacity. -/
theorem deque_append_length_le (m : ℕ) (l : List FrameSnapshot)
    (x : FrameSnapshot) : (deque_append m l x).length ≤ m := by
  rw [deque_append]
  by_cases h : m < (l ++ [x]).length
  · rw [if_pos h, List.length_drop]
    omega
  · rw [if_neg h]
    omega

/-- One buffer-sampling step preserves the capacity bound. -/
theorem buffer_sample_step_length (s : HandTrackerState) (t : ℝ)
    (h : s.frame_buffer.length ≤ BUFFER_MAXLEN) :
    (buffer_sample_step s t).frame_buffer.length ≤ BUFFER_MAXLEN := by
  rw [buffer_sample_step]
  by_cases hc : t - s.last_buffer_sample_time ≥ (FRAME_SAMPLE_RATE_MS : ℝ)
  · rw [if_pos hc]
    exact deque_append_length_le _ _ _
  · rw [if_neg hc]
    exact h

/-- C5 claim (amended): the frame buffer never holds more than
`int(1000/16) = 62` frames (in particular never more than 63) — eviction is
by deque capacity only; no timestamp-age-based eviction exists. -/
theorem frame_buffer_capacity :
    (∀ ticks : List ℝ,
      ((ticks.foldl buffer_sample_step handTrackerInit).frame_buffer).length ≤
        BUFFER_MAXLEN) ∧ BUFFER_MAXLEN = 62 := by
  constructor
  · intro ticks
    have hstep : ∀ (s : HandTrackerState), s.frame_buffer.length ≤ BUFFER_MAXLEN →
        ((ticks.foldl buffer_sample_step s).frame_buffer).length ≤
          BUFFER_MAXLEN := by
      induction ticks with
      | nil => exact fun s h => h
      | cons t rest ih =>
        exact fun s h => ih _ (buffer_sample_step_length s t h)
    exact hstep handTrackerInit (Nat.zero_le _)
  · rfl

/-- An in-capacity sampling step appends the new frame and stamps the
sample clock. -/
theorem buffer_sample_step_eq (s : HandTrackerState) (t : ℝ)
    (h : t - s.last_buffer_sample_time ≥ (FRAME_SAMPLE_RATE_MS : ℝ))
    (hlen : ¬BUFFER_MAXLEN < s.frame_buffer.length + 1) :
    (buffer_sample_step s t).frame_buffer =
      s.frame_buffer ++ [make_frame s t] ∧
    (buffer_sample_step s t).last_buffer_sample_time = t := by
  rw [buffer_sample_step, if_pos h]
  refine ⟨?_, rfl⟩
  show deque_append BUFFER_MAXLEN s.frame_buffer (make_frame s t) = _
  rw [deque_append]
  rw [if_neg (by simpa using hlen)]

/-- The frame built by `_add_frame_to_buffer` carries the sample time. -/
theorem make_frame_timestamp (s : HandTrackerState) (t : ℝ) :
    (make_frame s t).timestamp_ms = t := rfl

/-- C5 claim counterexample: sampling at wall-clock `100` and then at `2000`
(both legal under the ≥16ms cadence gate) leaves the buffer holding a frame
whose timestamp is `1900`ms older than the most recently appended frame's —
the claimed 1000ms age bound does not hold. -/
theorem frame_buffer_age_cex :
    ((buffer_sample_step (buffer_sample_step handTrackerInit 100)
        2000).frame_buffer).map FrameSnapshot.timestamp_ms = [100, 2000] ∧
    (2000 : ℝ) - 100 > 1000 := by
  have h1 := buffer_sample_step_eq handTrackerInit 100
    (by norm_num [handTrackerInit, FRAME_SAMPLE_RATE_MS])
    (by decide)
  have h2 := buffer_sample_step_eq (buffer_sample_step handTrackerInit 100)
    2000
    (by rw [h1.2]; norm_num [FRAME_SAMPLE_RATE_MS])
    (by rw [h1.1]; decide)
  constructor
  · rw [h2.1, h1.1, show handTrackerInit.frame_buffer = [] from rfl]
    simp [make_frame_timestamp]
  · norm_num

/-- C6 claim: when a baseline-capture phase expires, every finger of that hand
receives `baseline_angle` equal to the arithmetic mean of its collected angle
samples, and a finger with zero collected samples receives `0` degrees
rather than an error. -/
theorem baseline_capture_average (s : CalibState)
    (hand_data : String → Option HandData) (finger_angles : String → ℝ)
    (current_time : ℝ) (hand_type name : String)
    (h1 : current_time - s.baseline_start_time ≥ baseline_duration)
    (hn : name ∈ (if hand_type = "left" then LEFT_FINGERS else RIGHT_FINGERS)) :
    (update_baseline_capture s hand_data finger_angles current_time
        hand_type).2.baseline_angles name =
      some (if s.baseline_samples name = [] then 0
        else (s.baseline_samples name).sum / (s.baseline_samples name).length)
    := by
  rw [update_baseline_capture, if_pos h1]
  by_cases hht : hand_type = "left"
  · rw [if_pos hht]
    show (if name ∈ (if hand_type = "left" then LEFT_FINGERS else RIGHT_FINGERS)
        then _ else _) = _
    rw [if_pos hn]
    by_cases hs : s.baseline_samples name = [] <;> simp [hs]
  · rw [if_neg hht]
    show (if name ∈ (if hand_type = "left" then LEFT_FINGERS else RIGHT_FINGERS)
        then _ else _) = _
    rw [if_pos hn]
    by_cases hs : s.baseline_samples name = [] <;> simp [hs]

/-- A calibration state mid left-hand baseline capture with exactly 60
samples of value `10.0` collected for `left_index`. -/
def baselineWitnessState : CalibState :=
  { calibManagerInit with
      calibrating := true
      calibration_phase := "baseline_left"
      baseline_start_time := 0
      baseline_samples := fun n =>
        if n = "left_index" then List.replicate 60 10 else [] }

/-- C6 claim: witness: 60 samples of `10.0` average to a baseline of `10.0`. -/
theorem baseline_capture_average_witness :
    (update_baseline_capture baselineWitnessState (fun _ => none) (fun _ => 0)
        10 "left").2.baseline_angles "left_index" = some 10 := by
  rw [baseline_capture_average baselineWitnessState (fun _ => none)
    (fun _ => 0) 10 "left" "left_index"
    (by show (10:ℝ) - 0 ≥ baseline_duration
        rw [baseline_duration]; norm_num)
    (by decide)]
  rw [show baselineWitnessState.baseline_samples "left_index" =
    List.replicate 60 10 from rfl]
  rw [if_neg (by simp)]
  rw [List.sum_replicate, List.length_replicate]
  norm_num

/-- C7 claim: the flexion-angle computation is total — the dot product handed
to `acos` is always clamped into `[-1, 1]`, a vector with magnitude below the
near-zero guard normalises to the zero vector, and a degenerate input yields
a dot product of `0` and an angle of `90` degrees instead of a division by
zero. -/
theorem flexion_angle_total :
    (∀ d1 d2 : Vec3, -1 ≤ clamped_dot d1 d2 ∧ clamped_dot d1 d2 ≤ 1) ∧
    (∀ v : Vec3, vec_magnitude v < 0.0001 → normalize v = ⟨0, 0, 0⟩) ∧
    (∀ d1 d2 : Vec3,
      vec_magnitude d1 < 0.0001 ∨ vec_magnitude d2 < 0.0001 →
      clamped_dot d1 d2 = 0 ∧ calculate_flexion_angle d1 d2 = 90) := by
  have hnorm : ∀ v : Vec3, vec_magnitude v < 0.0001 →
      normalize v = ⟨0, 0, 0⟩ := by
    intro v hv
    rw [normalize]
    exact if_pos hv
  have hdot : ∀ d1 d2 : Vec3,
      vec_magnitude d1 < 0.0001 ∨ vec_magnitude d2 < 0.0001 →
      dot_normalized d1 d2 = 0 := by
    intro d1 d2 h
    rcases h with h | h
    · rw [dot_normalized, hnorm d1 h]
      simp
    · rw [dot_normalized, hnorm d2 h]
      simp
  refine ⟨?_, hnorm, ?_⟩
  · intro d1 d2
    exact ⟨le_max_left _ _, max_le (by norm_num) (min_le_left _ _)⟩
  · intro d1 d2 h
    have hc : clamped_dot d1 d2 = 0 := by
      rw [clamped_dot, hdot d1 d2 h]
      norm_num
    refine ⟨hc, ?_⟩
    rw [calculate_flexion_angle, hc, Real.arccos_zero, degrees]
    field_simp
    ring

/-- C7 claim: witness: the zero vector is degenerate and the returned angle at
it is `90` degrees. -/
theorem flexion_angle_total_witness :
    vec_magnitude ⟨0, 0, 0⟩ < 0.0001 ∧
    calculate_flexion_angle ⟨0, 0, 0⟩ ⟨1, 0, 0⟩ = 90 := by
  have hm : vec_magnitude ⟨0, 0, 0⟩ < 0.0001 := by
    rw [vec_magnitude]
    rw [show ((0:ℝ) ^ 2 + (0:ℝ) ^ 2 + (0:ℝ) ^ 2) = 0 by norm_num,
      Real.sqrt_zero]
    norm_num
  exact ⟨hm, (flexion_angle_total.2.2 _ _ (Or.inl hm)).2⟩

/-- C9 claim counterexample: with both hands invisible since startup, the frame
stored by the buffer-sampling step still contains a `FingerSnapshot` for
`left_index` — the fingers map is padded, not sparse. -/
theorem frame_sparse_cex :
    handTrackerInit.hands_visible "left" = false ∧
    handTrackerInit.hands_visible "right" = false ∧
    ∃ f ∈ (buffer_sample_step handTrackerInit 100).frame_buffer,
      (f.get_finger "left_index").isSome = true := by
  refine ⟨rfl, rfl, ?_⟩
  have h1 := buffer_sample_step_eq handTrackerInit 100
    (by norm_num [handTrackerInit, FRAME_SAMPLE_RATE_MS])
    (by decide)
  refine ⟨make_frame handTrackerInit 100, ?_, rfl⟩
  rw [h1.1, show handTrackerInit.frame_buffer = [] from rfl]
  simp

/-- C9 claim (amended): every `FrameSnapshot` built by
`_add_frame_to_buffer` holds a `FingerSnapshot` for each of the ten finger
identities — from the tracker's last-known (or default) per-finger data —
regardless of hand visibility; the map is never sparse. -/
theorem frame_fingers_dense (s : HandTrackerState) (t : ℝ) (name : String)
    (hn : name ∈ FINGER_NAMES) :
    (make_frame s t).get_finger name =
      some ⟨name, s.finger_positions name, s.finger_angles name,
        s.finger_states name⟩ := by
  rw [show FINGER_NAMES =
    ["left_pinky", "left_ring", "left_middle", "left_index", "left_thumb",
     "right_thumb", "right_index", "right_middle", "right_ring",
     "right_pinky"] from rfl] at hn
  fin_cases hn <;> rfl

/-- C9 claim (amended) witness: the dense map evaluated at `right_thumb` on the
initial tracker state. -/
theorem frame_fingers_dense_witness :
    (make_frame handTrackerInit 0).get_finger "right_thumb" =
      some ⟨"right_thumb", handTrackerInit.finger_positions "right_thumb",
        handTrackerInit.finger_angles "right_thumb",
        handTrackerInit.finger_states "right_thumb"⟩ :=
  frame_fingers_dense handTrackerInit 0 "right_thumb" (by decide)

/-- A concrete mid-calibration state: the left-hand baseline phase has
completed (baseline angle and palm average recorded), one finger's
calibration record has been taken, and one palm sample list is non-empty. -/
def midCalibState : CalibState :=
  { calibManagerInit with
      calibrating := true
      calibration_phase := "calibrating_finger"
      current_finger_index := 1
      palm_position_samples := fun h => if h = "left" then [⟨1, 2, 3⟩] else []
      baseline_angles := fun n => if n = "left_pinky" then some 5 else none
      calibration_data := fun n =>
        if n = "left_pinky" then some ⟨5, 40, 30, 35⟩ else none }

/-- C8 claim counterexample: cancelling from an active phase does *not* clear
the partially captured baseline angles, the palm-position samples, or the
per-finger calibration records — they all survive `cancel_calibration`. -/
theorem cancel_keeps_partial_data :
    (cancel_calibration midCalibState).palm_position_samples "left" =
      [⟨1, 2, 3⟩] ∧
    (cancel_calibration midCalibState).baseline_angles "left_pinky" = some 5 ∧
    (cancel_calibration midCalibState).calibration_data "left_pinky" =
      some ⟨5, 40, 30, 35⟩ := by
  refine ⟨?_, ?_, ?_⟩ <;> simp [cancel_calibration, midCalibState]

/-- C8 claim (amended): cancelling calibration resets the calibrating flag, the
phase (to idle), the finger index, every finger's collected angle samples and
the hold timer, and writes nothing to persisted storage; but the partially
captured baseline angles, palm-position samples, calibrated palm positions
and per-finger calibration records survive in memory. -/
theorem cancel_calibration_resets (s : CalibState) :
    (cancel_calibration s).calibrating = false ∧
    (cancel_calibration s).calibration_phase = "idle" ∧
    (cancel_calibration s).current_finger_index = 0 ∧
    (∀ n, (cancel_calibration s).baseline_samples n = []) ∧
    (cancel_calibration s).threshold_reached_time = none ∧
    (cancel_calibration s).persisted = s.persisted ∧
    (cancel_calibration s).baseline_angles = s.baseline_angles ∧
    (cancel_calibration s).palm_position_samples = s.palm_position_samples ∧
    (cancel_calibration s).calibrated_palm_positions =
      s.calibrated_palm_positions ∧
    (cancel_calibration s).calibration_data = s.calibration_data := by
  refine ⟨rfl, rfl, rfl, fun n => rfl, rfl, rfl, rfl, rfl, rfl, rfl⟩

end LeapTracking
